import Mathlib

/-!
# Verification of the video trimmer bot core (`src/main.py`)

A shallow embedding of the session state machine, time parser, media
qualification logic, progress callback and trim pipeline of the bot,
together with proofs of the specification's claims about them.

Conventions:
* Python `float` time values are modelled as rationals (`ℚ`); every input
  exercised here is exactly representable, so rational arithmetic agrees
  with IEEE double arithmetic on them.
* Python dictionaries keyed by user id are modelled as functions
  `Nat → Option _`; `del d[k]` guarded by `k in d` is extensionally the
  update of key `k` to `none`.
* A Python function that can raise is modelled with `Option`/`Except`;
  `None` models a raised `ValueError` in `parse_time`.
-/

set_option autoImplicit false
set_option maxRecDepth 100000

namespace VideoTrimmer

/-! ### Python `float(str)` conversion

`parse_time` calls Python's `float` on each piece of the input.  We model
the finite-decimal fragment of that conversion: surrounding ASCII
whitespace is stripped, then an optional sign, a decimal mantissa
(`digits`, `digits.`, `digits.digits`, or `.digits`) and an optional
exponent part are read.  (Python additionally accepts `inf`/`nan`
spellings and underscores between digits; no claim depends on those, and
they are outside the rational value model.) -/

/-- ASCII whitespace stripped by Python's `float` conversion. -/
def isPyWs (c : Char) : Bool :=
  c == ' ' || c == '\t' || c == '\n' || c == '\r' || c == '\x0b' || c == '\x0c'

/-- Numeric value of a list of decimal digit characters. -/
def digitsVal (cs : List Char) : Nat :=
  cs.foldl (fun acc c => 10 * acc + (c.toNat - '0'.toNat)) 0

/-- Read an optional leading sign; returns the sign and the rest. -/
def readSign : List Char → Int × List Char
  | '+' :: rest => (1, rest)
  | '-' :: rest => (-1, rest)
  | cs => (1, cs)

/-- Read an unsigned decimal mantissa (`12`, `12.`, `12.5`, `.5`);
returns its rational value and the unread rest, or `none` when no digit
is present. -/
def readMantissa (cs : List Char) : Option (ℚ × List Char) :=
  let intPart := cs.takeWhile (·.isDigit)
  let rest := cs.dropWhile (·.isDigit)
  match rest with
  | '.' :: rest2 =>
    let fracPart := rest2.takeWhile (·.isDigit)
    let rest3 := rest2.dropWhile (·.isDigit)
    if intPart.isEmpty && fracPart.isEmpty then none
    else some ((digitsVal intPart : ℚ)
        + (digitsVal fracPart : ℚ) / ((10 ^ fracPart.length : ℕ) : ℚ), rest3)
  | _ =>
    if intPart.isEmpty then none else some ((digitsVal intPart : ℚ), rest)

/-- Read an optional exponent part (`e5`, `E-3`, …); returns the signed
exponent and the unread rest, `none` when an `e`/`E` is not followed by
digits, and exponent `0` when no `e`/`E` is present. -/
def readExponent (cs : List Char) : Option (Int × List Char) :=
  match cs with
  | c :: rest =>
    if c == 'e' || c == 'E' then
      let (sgn, rest2) := readSign rest
      let ds := rest2.takeWhile (·.isDigit)
      let rest3 := rest2.dropWhile (·.isDigit)
      if ds.isEmpty then none else some (sgn * (digitsVal ds : Int), rest3)
    else some (0, cs)
  | [] => some (0, [])

/-- `10 ^ e` over `ℚ` for a signed exponent, via `Nat` powers. -/
def pow10 (e : Int) : ℚ :=
  if 0 ≤ e then ((10 ^ e.toNat : ℕ) : ℚ) else 1 / ((10 ^ (-e).toNat : ℕ) : ℚ)

/-- Python `float(s)` restricted to finite decimal literals: `none`
models the `ValueError` Python raises on a malformed string. -/
def pyFloat (s : String) : Option ℚ :=
  let cs := ((s.toList.dropWhile isPyWs).reverse.dropWhile isPyWs).reverse
  let (sgn, cs1) := readSign cs
  match readMantissa cs1 with
  | none => none
  | some (m, cs2) =>
    match readExponent cs2 with
    | none => none
    | some (e, cs3) =>
      if cs3.isEmpty then some ((sgn : ℚ) * m * pow10 e) else none

/-! ### `parse_time` (src/main.py lines 272–282) -/

/-- Split a character list at every occurrence of `sep`, like Python's
`str.split(sep)` for a one-character separator. -/
def splitOnChar (sep : Char) : List Char → List (List Char)
  | [] => [[]]
  | c :: rest =>
    let r := splitOnChar sep rest
    if c == sep then [] :: r
    else
      match r with
      | h :: t => (c :: h) :: t
      | [] => [[c]]

/-- Python `float` applied to a piece of the input, as a character list. -/
def pyFloatChars (cs : List Char) : Option ℚ :=
  pyFloat (String.mk cs)

/-- Embedding of `parse_time`: if `':'` occurs in the string, split on
`':'`; exactly two pieces are interpreted as `minutes:seconds`, any
other piece count raises; without `':'` the whole string is converted
as one float.  `none` models the raised `ValueError`. -/
def parse_time (time_str : String) : Option ℚ :=
  let cs := time_str.toList
  if cs.contains ':' then
    let parts := splitOnChar ':' cs
    if parts.length == 2 then
      match pyFloatChars (parts.getD 0 []), pyFloatChars (parts.getD 1 []) with
      | some minutes, some seconds => some (minutes * 60 + seconds)
      | _, _ => none
    else none
  else pyFloat time_str

/-! ### Session Store (the `USER_STATES` and `VIDEO_DATA` dictionaries)

Both dictionaries are keyed by the Telegram user id; we model them as
functions `Nat → Option _`.  The `start_time`/`end_time` keys are added
to a user's `VIDEO_DATA` entry only after the corresponding dialogue
step, hence the `Option` fields. -/

/-- The values of `USER_STATES` (`src/main.py` lines 186, 223, 251). -/
inductive UserState
  | waitingForStartTime
  | waitingForEndTime
  | processing
deriving DecidableEq

/-- One `VIDEO_DATA` entry (`src/main.py` lines 177–184, 222, 250). -/
structure VideoData where
  messageId : Nat
  fileId : String
  duration : Option Nat
  fileSize : Nat
  fileName : String
  isDocument : Bool
  startTime : Option ℚ := none
  endTime : Option ℚ := none
deriving DecidableEq

/-- Update one key of a `Nat`-keyed map. -/
def update {α : Type} (f : Nat → Option α) (k : Nat) (v : Option α) :
    Nat → Option α :=
  fun k2 => if k2 = k then v else f k2

/-- The two global dictionaries, bundled. -/
structure Store where
  userStates : Nat → Option UserState
  videoData : Nat → Option VideoData

theorem Store.ext {s t : Store} (h1 : s.userStates = t.userStates)
    (h2 : s.videoData = t.videoData) : s = t := by
  cases s; cases t; cases h1; cases h2; rfl

/-- The store with no sessions. -/
def emptyStore : Store := ⟨fun _ => none, fun _ => none⟩

/-! ### `/cancel` (src/main.py lines 130–140) -/

/-- Embedding of `cancel_command`: delete the user's entries from both
dictionaries (each `del` is guarded by an `in` check, so the handler
never raises), then reply; the reply is unconditional and carries no
state, so it is omitted here. -/
def cancel_command (user_id : Nat) (s : Store) : Store :=
  ⟨update s.userStates user_id none, update s.videoData user_id none⟩

/-! ### Media qualification and `handle_video` (src/main.py lines 142–201) -/

/-- Python `needle in hay` on strings, via character lists. -/
def listContainsSub (needle : List Char) : List Char → Bool
  | [] => needle.isEmpty
  | c :: rest => needle.isPrefixOf (c :: rest) || listContainsSub needle rest

/-- ASCII lower-casing of one character, as Python `str.lower` acts on
the ASCII file names exercised here. -/
def asciiLower (c : Char) : Char :=
  if 'A' ≤ c && c ≤ 'Z' then Char.ofNat (c.toNat + 32) else c

/-- An incoming Telegram media message, restricted to the attributes
`handle_video` reads.  `isVideo`/`isDocument` reflect `message.video`
and `message.document` being non-`None`. -/
structure MediaMsg where
  userId : Nat
  messageId : Nat
  isVideo : Bool
  isDocument : Bool
  fileName : Option String
  mimeType : Option String
  fileSize : Nat
  duration : Option Nat
  fileId : String

/-- The extension list of `src/main.py` line 154. -/
def videoExts : List String :=
  [".mp4", ".avi", ".mov", ".mkv", ".webm", ".flv", ".wmv"]

/-- `video.file_name or "video.mp4"`: Python treats `None` and the
empty string as falsy. -/
def orDefaultName (fn : Option String) : String :=
  match fn with
  | some n => if n = "" then "video.mp4" else n
  | none => "video.mp4"

/-- `message.document.mime_type and mime_type.startswith('video/')`. -/
def mimeIsVideo (mt : Option String) : Bool :=
  match mt with
  | some m => !(m == "") && "video/".toList.isPrefixOf m.toList
  | none => false

/-- `message.document.file_name and any(ext in file_name.lower() for ext
in [...])` — note the Python `in` is substring containment, not an
extension comparison. -/
def extMatches (fn : Option String) : Bool :=
  match fn with
  | some n =>
    !(n == "") &&
      videoExts.any fun ext => listContainsSub ext.toList (n.toList.map asciiLower)
  | none => false

/-- The reply `handle_video` sends when it does not accept the message. -/
inductive MediaReply
  | unsupportedMedia
  | fileTooLarge
  | accepted
deriving DecidableEq

/-- `MAX_FILE_SIZE_MB * 1024 * 1024` with the default `MAX_FILE_SIZE`
of 2000 (src/main.py lines 32–33). -/
def MAX_FILE_SIZE_BYTES : Nat := 2000 * 1024 * 1024

/-- Embedding of `handle_video`: pick the video object and file name by
the three-way test of lines 148–156 (reject otherwise), then reject
oversized files, then store the `VIDEO_DATA` entry and set the user's
state to `waiting_for_start_time`. -/
def handle_video (maxBytes : Nat) (m : MediaMsg) (s : Store) :
    Store × MediaReply :=
  let chosenName : Option String :=
    if m.isVideo then some (orDefaultName m.fileName)
    else if m.isDocument && mimeIsVideo m.mimeType then
      some (orDefaultName m.fileName)
    else if m.isDocument && extMatches m.fileName then
      some ((m.fileName).getD "")
    else none
  match chosenName with
  | none => (s, .unsupportedMedia)
  | some fn =>
    if maxBytes < m.fileSize then (s, .fileTooLarge)
    else
      (⟨update s.userStates m.userId (some .waitingForStartTime),
        update s.videoData m.userId
          (some ⟨m.messageId, m.fileId, m.duration, m.fileSize, fn,
            m.isDocument, none, none⟩)⟩,
       .accepted)

/-! ### `handle_text` (src/main.py lines 203–270)

The handler strips the text, skips commands, rejects users with no
session, and otherwise acts on the user's dialogue state.  The reply it
sends (or the absence of one) is modelled by `TextReply`; the
`processingStarted` outcome corresponds to the branch that transitions
to `'processing'` and then calls `trim_and_send_video` (modelled
separately below). -/

/-- Python `str.strip()` restricted to ASCII whitespace. -/
def pyStrip (cs : List Char) : List Char :=
  ((cs.dropWhile isPyWs).reverse.dropWhile isPyWs).reverse

/-- The possible outcomes of one `handle_text` invocation.
`storeKeyError` models an uncaught `KeyError`: the state dictionary
names a dialogue state but the `VIDEO_DATA` entry or its `start_time`
key is missing (unreachable through the handlers, but the code would
raise there before mutating anything). -/
inductive TextReply
  | cmdSkipped
  | noActiveSession
  | startSet (t : ℚ)
  | invalidTimeFmt
  | invalidRange
  | processingStarted (st en : ℚ)
  | ignoredInProcessing
  | storeKeyError
deriving DecidableEq

/-- Embedding of `handle_text`. -/
def handle_text (text : String) (user_id : Nat) (s : Store) :
    Store × TextReply :=
  let t := pyStrip text.toList
  if t.headD ' ' == '/' then
    (s, .cmdSkipped)
  else
    match s.userStates user_id with
    | none => (s, .noActiveSession)
    | some .waitingForStartTime =>
      match parse_time (String.mk t) with
      | some start_time =>
        match s.videoData user_id with
        | some vd =>
          (⟨update s.userStates user_id (some .waitingForEndTime),
            update s.videoData user_id
              (some { vd with startTime := some start_time })⟩,
           .startSet start_time)
        | none => (s, .storeKeyError)
      | none => (s, .invalidTimeFmt)
    | some .waitingForEndTime =>
      match parse_time (String.mk t) with
      | some end_time =>
        match s.videoData user_id with
        | some vd =>
          match vd.startTime with
          | some start_time =>
            if end_time ≤ start_time then (s, .invalidRange)
            else
              (⟨update s.userStates user_id (some .processing),
                update s.videoData user_id
                  (some { vd with endTime := some end_time })⟩,
               .processingStarted start_time end_time)
          | none => (s, .storeKeyError)
        | none => (s, .storeKeyError)
      | none => (s, .invalidTimeFmt)
    | some .processing => (s, .ignoredInProcessing)

/-! ### `progress_callback` (src/main.py lines 73–80) -/

/-- Python `x % m` on floats, for `m > 0`. -/
def pymod (x m : ℚ) : ℚ := x - m * (⌊x / m⌋ : ℤ)

/-- The guard of line 76: the display is updated only when
`percent % 10 < 1`. -/
def progressFires (current total : ℚ) : Bool :=
  pymod (current / total * 100) 10 < 1

/-- Embedding of `progress_callback`.  The `message.edit` call is an
external effect that may fail; its outcome is the `edit` argument.  The
returned value says whether the display was updated; the `Except` layer
is the callback's own error behaviour — the `try/except: pass` of lines
77–80 turns any edit failure into a normal return. -/
def progress_callback (current total : ℚ) (edit : Except String Unit) :
    Except String Bool :=
  if progressFires current total then
    match edit with
    | Except.ok _ => Except.ok true
    | Except.error _ => Except.ok false
  else Except.ok false

/-! ### `trim_and_send_video` (src/main.py lines 284–478)

The pipeline interacts with the file system, the Telegram transport and
the `ffmpeg` subprocess.  All external outcomes are collected in a
`RunEnv` record; the run is then a deterministic function of the store
and that record.  The workspace created by `tempfile.mkdtemp` is
exclusively owned by the run, so the on-disk state the run can affect
is captured by three booleans. -/

/-- Existence of the run's temp directory and its two files. -/
structure Workspace where
  dirExists : Bool
  inputExists : Bool
  outputExists : Bool
deriving DecidableEq

/-- Everything the environment decides during one run. -/
structure RunEnv where
  /-- `check_ffmpeg()` at line 292 succeeds. -/
  ffmpegOk : Bool
  /-- `client.get_messages` at line 308 succeeds (else it raises). -/
  getMessagesOk : Bool
  /-- the download at line 327 returns (else it raises). -/
  downloadOk : Bool
  /-- the input file exists after the download attempt. -/
  downloadCreatesFile : Bool
  /-- `os.path.getsize(input_path)` after a completed download. -/
  downloadedSize : Nat
  /-- the `ffmpeg` subprocess exceeds the 300 s timeout. -/
  ffmpegTimesOut : Bool
  /-- `result.returncode` of the `ffmpeg` subprocess. -/
  ffmpegExitCode : Nat
  /-- `result.stderr` of the `ffmpeg` subprocess. -/
  ffmpegStderr : String
  /-- the output file exists after the subprocess ends. -/
  ffmpegCreatesOutput : Bool
  /-- `os.path.getsize(output_path)` when the output exists. -/
  outputSize : Nat
  /-- `client.send_video` at line 386 succeeds (else it raises). -/
  uploadOk : Bool

/-- The classification of a non-zero `ffmpeg` exit by the diagnostic
text (src/main.py lines 361–371): each branch raises a distinct
exception message. -/
inductive TrimError
  | invalidMediaFormat
  | inputNotFound
  | permissionDenied
  | transcodeFailed (stderr : String)
deriving DecidableEq

/-- Lines 364–371: substring tests on `result.stderr`, in order. -/
def classifyStderr (stderr : String) : TrimError :=
  if listContainsSub "Invalid data found".toList stderr.toList then
    .invalidMediaFormat
  else if listContainsSub "No such file".toList stderr.toList then
    .inputNotFound
  else if listContainsSub "Permission denied".toList stderr.toList then
    .permissionDenied
  else .transcodeFailed stderr

/-- How one run ends, before the `finally` block: either the early
return (FFmpeg unavailable), a raised-and-caught exception, the caught
timeout, or a successful upload. -/
inductive RunResult
  | ffmpegUnavailable
  | sessionDataMissing
  | sourceLookupFailed
  | fetchFailed
  | emptyDownload
  | trimTimeout
  | transcodeError (e : TrimError)
  | outputMissing
  | outputEmpty
  | publishFailed
  | sent
deriving DecidableEq

/-- The `finally` block's file cleanup (lines 457–472): unlink the
input and output files when present, then remove the directory if it
is empty — which it is once both files are gone, since the run owns
the directory exclusively. -/
def cleanupWorkspace (ws : Workspace) : Workspace :=
  let ws1 : Workspace := { ws with inputExists := false }
  let ws2 : Workspace := { ws1 with outputExists := false }
  if ws2.dirExists && !ws2.inputExists && !ws2.outputExists then
    { ws2 with dirExists := false }
  else ws2

/-- Embedding of `trim_and_send_video`: the `try` body with its early
return and every raise point, followed unconditionally by the
`finally` block, which cleans the workspace and deletes the user's
entries from both dictionaries. -/
def trim_and_send_video (env : RunEnv) (user_id : Nat) (s : Store) :
    Store × Workspace × RunResult :=
  let body : Workspace × RunResult :=
    if !env.ffmpegOk then (⟨false, false, false⟩, .ffmpegUnavailable)
    else
      match s.videoData user_id with
      | none => (⟨false, false, false⟩, .sessionDataMissing)
      | some vd =>
        match vd.startTime, vd.endTime with
        | some _, some _ =>
          if !env.getMessagesOk then
            (⟨false, false, false⟩, .sourceLookupFailed)
          else
            -- `tempfile.mkdtemp` has created the directory here
            if !env.downloadOk then
              (⟨true, env.downloadCreatesFile, false⟩, .fetchFailed)
            else if !env.downloadCreatesFile then
              (⟨true, false, false⟩, .emptyDownload)
            else if env.downloadedSize == 0 then
              (⟨true, true, false⟩, .emptyDownload)
            else if env.ffmpegTimesOut then
              (⟨true, true, env.ffmpegCreatesOutput⟩, .trimTimeout)
            else if env.ffmpegExitCode != 0 then
              (⟨true, true, env.ffmpegCreatesOutput⟩,
               .transcodeError (classifyStderr env.ffmpegStderr))
            else if !env.ffmpegCreatesOutput then
              (⟨true, true, false⟩, .outputMissing)
            else if env.outputSize == 0 then
              (⟨true, true, true⟩, .outputEmpty)
            else if !env.uploadOk then
              (⟨true, true, true⟩, .publishFailed)
            else (⟨true, true, true⟩, .sent)
        | _, _ => (⟨false, false, false⟩, .sessionDataMissing)
  (⟨update s.userStates user_id none, update s.videoData user_id none⟩,
   cleanupWorkspace body.1, body.2)

/-! ### Concrete sample data used by counterexamples and witnesses -/

/-- A `VIDEO_DATA` entry as created by `handle_video` (no times yet). -/
def vdNoTimes : VideoData :=
  ⟨10, "fid", some 120, 1000, "video.mp4", false, none, none⟩

/-- A `VIDEO_DATA` entry with a stored start time of 90 s. -/
def vdWithStart : VideoData := { vdNoTimes with startTime := some 90 }

/-- A `VIDEO_DATA` entry with both times stored. -/
def vdProcessing : VideoData :=
  { vdNoTimes with startTime := some 10, endTime := some 40 }

/-- User 1 awaiting a start time. -/
def startStore : Store :=
  ⟨update emptyStore.userStates 1 (some .waitingForStartTime),
   update emptyStore.videoData 1 (some vdNoTimes)⟩

/-- User 1 awaiting an end time, start time 90 s stored. -/
def endStore : Store :=
  ⟨update emptyStore.userStates 1 (some .waitingForEndTime),
   update emptyStore.videoData 1 (some vdWithStart)⟩

/-- User 1 in the `processing` state with both times stored. -/
def processingStore : Store :=
  ⟨update emptyStore.userStates 1 (some .processing),
   update emptyStore.videoData 1 (some vdProcessing)⟩

/-! ### C3: shape of `parse_time` -/

/-- C3: with exactly one `':'` splitting the input into two
float-convertible parts the parser returns `minutes*60 + seconds`; with
no `':'` it converts the whole string; a `':'` with a piece count other
than two, or a piece the float conversion rejects, raises
`ValueError`; `parse("90") = 90`, while `parse("1:2:3")` and
`parse("abc")` fail. -/
theorem claim3_parse_time_shape :
    (∀ (t : String) (a b : List Char) (m sec : ℚ),
      t.toList.contains ':' = true →
      splitOnChar ':' t.toList = [a, b] →
      pyFloatChars a = some m → pyFloatChars b = some sec →
      parse_time t = some (m * 60 + sec)) ∧
    (∀ t : String, t.toList.contains ':' = false →
      parse_time t = pyFloat t) ∧
    (∀ t : String, t.toList.contains ':' = true →
      (splitOnChar ':' t.toList).length ≠ 2 → parse_time t = none) ∧
    (∀ (t : String) (a b : List Char), t.toList.contains ':' = true →
      splitOnChar ':' t.toList = [a, b] →
      pyFloatChars a = none ∨ pyFloatChars b = none →
      parse_time t = none) ∧
    (parse_time "90" = some 90 ∧ parse_time "1:2:3" = none ∧
      parse_time "abc" = none) := by
  refine ⟨?_, ?_, ?_, ?_, ?_⟩
  · intro t a b m sec h1 h2 h3 h4
    have h1' : ':' ∈ t.data := by simpa using h1
    have h2' : splitOnChar ':' t.data = [a, b] := h2
    simp [parse_time, h1', h2', h3, h4]
  · intro t h1
    have h1' : ':' ∉ t.data := by simpa using h1
    simp [parse_time, h1']
  · intro t h1 h2
    have h1' : ':' ∈ t.data := by simpa using h1
    have h2' : (splitOnChar ':' t.data).length ≠ 2 := h2
    simp [parse_time, h1', h2']
  · intro t a b h1 h2 h3
    have h1' : ':' ∈ t.data := by simpa using h1
    have h2' : splitOnChar ':' t.data = [a, b] := h2
    rcases h3 with h3 | h3
    · simp [parse_time, h1', h2', h3]
    · cases ha : pyFloatChars a <;> simp [parse_time, h1', h2', h3, ha]
  · refine ⟨?_, ?_, ?_⟩ <;> with_unfolding_all decide

/-- C3 witness: the theorem applied to the concrete input `"1:30"`. -/
theorem claim3_witness : parse_time "1:30" = some (1 * 60 + 30) :=
  claim3_parse_time_shape.1 "1:30" ['1'] ['3', '0'] 1 30
    (by decide) (by decide)
    (by with_unfolding_all decide) (by with_unfolding_all decide)

/-! ### C10: the parser is more lenient than the documented shapes -/

/-- C10: inputs with internal whitespace around a part, an explicit
sign, or exponent notation are accepted — each part goes through the
general float conversion, so `"1: 30"`, `"+5"` and `"1e2"` all parse
instead of raising `ValueError`. -/
theorem claim10_parser_leniency :
    parse_time "1: 30" = some 90 ∧ parse_time "+5" = some 5 ∧
      parse_time "1e2" = some 100 := by
  refine ⟨?_, ?_, ?_⟩ <;> with_unfolding_all decide

/-! ### C9: `/cancel` is unconditional and idempotent -/

/-- C9: `cancel_command` removes the user's session in every state,
cancelling twice equals cancelling once, and cancelling with no session
present leaves the store exactly as it was (and never errors — the
handler is a total function). -/
theorem claim9_cancel_idempotent (s : Store) (u : Nat) :
    (cancel_command u s).userStates u = none ∧
    (cancel_command u s).videoData u = none ∧
    cancel_command u (cancel_command u s) = cancel_command u s ∧
    (s.userStates u = none → s.videoData u = none → cancel_command u s = s) := by
  refine ⟨by simp [cancel_command, update], by simp [cancel_command, update],
    ?_, ?_⟩
  · refine Store.ext (funext fun k => ?_) (funext fun k => ?_) <;>
      by_cases hk : k = u <;> simp [cancel_command, update, hk]
  · intro h1 h2
    refine Store.ext (funext fun k => ?_) (funext fun k => ?_)
    · by_cases hk : k = u
      · subst hk; simp [cancel_command, update, h1]
      · simp [cancel_command, update, hk]
    · by_cases hk : k = u
      · subst hk; simp [cancel_command, update, h2]
      · simp [cancel_command, update, hk]

/-- C9 witness: cancel on the empty store removes nothing and is the
identity. -/
theorem claim9_witness :
    (cancel_command 5 emptyStore).userStates 5 = none ∧
    cancel_command 5 emptyStore = emptyStore :=
  ⟨(claim9_cancel_idempotent emptyStore 5).1,
   (claim9_cancel_idempotent emptyStore 5).2.2.2 rfl rfl⟩

/-! ### C4: the `endTime > startTime` range check -/

/-- C4: a non-command text in `waiting_for_end_time` that parses to
`end_time ≤ start_time` leaves the store untouched (state still
`waiting_for_end_time`, stored start time unchanged) and reports the
range error; and whenever a `handle_text` step moves a user into
`processing`, the stored start time was strictly below the parsed end
time. -/
theorem claim4_range_check :
    (∀ (s : Store) (u : Nat) (vd : VideoData) (st : ℚ) (text : String)
        (en : ℚ),
      s.userStates u = some .waitingForEndTime →
      s.videoData u = some vd → vd.startTime = some st →
      ((pyStrip text.toList).headD ' ' == '/') = false →
      parse_time (String.mk (pyStrip text.toList)) = some en →
      en ≤ st →
      handle_text text u s = (s, .invalidRange)) ∧
    (∀ (s : Store) (u : Nat) (text : String),
      (handle_text text u s).1.userStates u = some .processing →
      s.userStates u ≠ some .processing →
      ∃ (vd : VideoData) (st en : ℚ), s.videoData u = some vd ∧
        vd.startTime = some st ∧
        parse_time (String.mk (pyStrip text.toList)) = some en ∧ st < en) := by
  constructor
  · intro s u vd st text en h1 h2 h3 h4 h5 h6
    have h5' : parse_time { data := pyStrip text.data } = some en := h5
    have h4' : ¬(pyStrip text.data).head?.getD ' ' = '/' := by simpa using h4
    simp [handle_text, h1, h2, h3, h4', h5', h6]
  · intro s u text h1 h2
    cases hcmd : ((pyStrip text.data).headD ' ' == '/') with
    | true =>
      have hcmd' : (pyStrip text.data).head?.getD ' ' = '/' := by
        simpa using hcmd
      rw [show handle_text text u s = (s, .cmdSkipped) from by
        simp [handle_text, hcmd']] at h1
      exact absurd h1 h2
    | false =>
    have hcmd' : ¬(pyStrip text.data).head?.getD ' ' = '/' := by
      simpa using hcmd
    cases hstate : s.userStates u with
    | none =>
      rw [show handle_text text u s = (s, .noActiveSession) from by
        simp [handle_text, hcmd', hstate]] at h1
      exact absurd h1 h2
    | some st0 =>
      cases st0 with
      | processing => exact absurd hstate h2
      | waitingForStartTime =>
        cases hparse : parse_time { data := pyStrip text.data } with
        | none =>
          rw [show handle_text text u s = (s, .invalidTimeFmt) from by
            simp [handle_text, hcmd', hstate, hparse]] at h1
          exact absurd h1 h2
        | some v =>
          cases hvd : s.videoData u with
          | none =>
            rw [show handle_text text u s = (s, .storeKeyError) from by
              simp [handle_text, hcmd', hstate, hparse, hvd]] at h1
            exact absurd h1 h2
          | some vd =>
            rw [show (handle_text text u s).1.userStates u =
                some .waitingForEndTime from by
              simp [handle_text, hcmd', hstate, hparse, hvd, update]] at h1
            exact absurd h1 (by simp)
      | waitingForEndTime =>
        cases hparse : parse_time { data := pyStrip text.data } with
        | none =>
          rw [show handle_text text u s = (s, .invalidTimeFmt) from by
            simp [handle_text, hcmd', hstate, hparse]] at h1
          exact absurd h1 h2
        | some en =>
          cases hvd : s.videoData u with
          | none =>
            rw [show handle_text text u s = (s, .storeKeyError) from by
              simp [handle_text, hcmd', hstate, hparse, hvd]] at h1
            exact absurd h1 h2
          | some vd =>
            cases hst : vd.startTime with
            | none =>
              rw [show handle_text text u s = (s, .storeKeyError) from by
                simp [handle_text, hcmd', hstate, hparse, hvd, hst]] at h1
              exact absurd h1 h2
            | some st =>
              by_cases hle : en ≤ st
              · rw [show handle_text text u s = (s, .invalidRange) from by
                  simp [handle_text, hcmd', hstate, hparse, hvd, hst, hle]] at h1
                exact absurd h1 h2
              · exact ⟨vd, st, en, rfl, hst, hparse, not_le.mp hle⟩

/-- C4 witness: spec scenario B — start time 90 s stored, end time
`"1:10"` (70 s) rejected with the store unchanged. -/
theorem claim4_witness : handle_text "1:10" 1 endStore = (endStore, .invalidRange) :=
  claim4_range_check.1 endStore 1 vdWithStart 90 "1:10" 70
    rfl rfl rfl (by decide) (by with_unfolding_all decide)
    (by with_unfolding_all decide)

/-! ### C5: negative parsed times are not rejected (counterexample) -/

/-- C5 counterexample: in `waiting_for_start_time` the text `"-5"`
parses to `-5` and is stored as the start time with no range check —
the claim's "a negative start time is never stored" is false — and a
subsequent `"-1"` moves the session into `processing`, so the negative
start also reaches the trim pipeline. -/
theorem claim5_counterexample :
    (handle_text "-5" 1 startStore).1.videoData 1 =
      some { vdNoTimes with startTime := some (-5) } ∧
    (handle_text "-5" 1 startStore).1.userStates 1 =
      some .waitingForEndTime ∧
    (handle_text "-1" 1 (handle_text "-5" 1 startStore).1).2 =
      .processingStarted (-5) (-1) := by
  refine ⟨?_, ?_, ?_⟩ <;> with_unfolding_all decide

/-- C5 amended: the dialogue layer has no negativity check — a parsed
negative start time is stored and the state advances, and a stored
negative start time enters `processing` whenever the parsed end time
exceeds it; the only range check before `processing` is
`endTime > startTime`. -/
theorem claim5_negative_times_accepted :
    (∀ (s : Store) (u : Nat) (vd : VideoData) (text : String) (st : ℚ),
      s.userStates u = some .waitingForStartTime →
      s.videoData u = some vd →
      ((pyStrip text.toList).headD ' ' == '/') = false →
      parse_time (String.mk (pyStrip text.toList)) = some st → st < 0 →
      handle_text text u s =
        (⟨update s.userStates u (some .waitingForEndTime),
          update s.videoData u (some { vd with startTime := some st })⟩,
         .startSet st)) ∧
    (∀ (s : Store) (u : Nat) (vd : VideoData) (text : String) (st en : ℚ),
      s.userStates u = some .waitingForEndTime →
      s.videoData u = some vd → vd.startTime = some st → st < 0 →
      ((pyStrip text.toList).headD ' ' == '/') = false →
      parse_time (String.mk (pyStrip text.toList)) = some en → st < en →
      handle_text text u s =
        (⟨update s.userStates u (some .processing),
          update s.videoData u (some { vd with endTime := some en })⟩,
         .processingStarted st en)) := by
  constructor
  · intro s u vd text st h1 h2 h3 h4 _h5
    have h3' : ¬(pyStrip text.data).head?.getD ' ' = '/' := by simpa using h3
    have h4' : parse_time { data := pyStrip text.data } = some st := h4
    simp [handle_text, h1, h2, h3', h4']
  · intro s u vd text st en h1 h2 h3 _h4 h5 h6 h7
    have h5' : ¬(pyStrip text.data).head?.getD ' ' = '/' := by simpa using h5
    have h6' : parse_time { data := pyStrip text.data } = some en := h6
    simp [handle_text, h1, h2, h3, h5', h6', not_le.mpr h7]

/-- C5 amended witness: the negative start `"-5"` accepted in the
concrete store. -/
theorem claim5_witness :
    handle_text "-5" 1 startStore =
      (⟨update startStore.userStates 1 (some .waitingForEndTime),
        update startStore.videoData 1
          (some { vdNoTimes with startTime := some (-5) })⟩,
       .startSet (-5)) :=
  claim5_negative_times_accepted.1 startStore 1 vdNoTimes "-5" (-5)
    rfl rfl (by decide) (by with_unfolding_all decide)
    (by with_unfolding_all decide)

/-! ### C6: which media messages create a session -/

/-- Modelled from the claim's words (not from the source): the
file extension of a name is its suffix from the last dot, and the claim
accepts a document when that extension, lower-cased, is in the known
video set. -/
def claimExtensionOf (fn : String) : String :=
  let parts := splitOnChar '.' (fn.toList.map asciiLower)
  if parts.length ≤ 1 then "" else String.mk ('.' :: parts.getLastD [])

/-- Modelled from the claim's words (not from the source): a message
qualifies exactly when it is a video, a document with a declared video
MIME type, or a document whose file extension is in the video set. -/
def claimQualifies (m : MediaMsg) : Bool :=
  m.isVideo || (m.isDocument && mimeIsVideo m.mimeType) ||
    (m.isDocument && videoExts.contains (claimExtensionOf ((m.fileName).getD "")))

/-- The disjunction actually tested by `handle_video` (lines 148–156):
note the extension test is substring containment on the lower-cased
file name. -/
def qualifiesMedia (m : MediaMsg) : Bool :=
  m.isVideo || (m.isDocument && mimeIsVideo m.mimeType) ||
    (m.isDocument && extMatches m.fileName)

/-- A document whose name merely contains `".mp4"` and whose declared
MIME type is not a video type. -/
def trickyDoc : MediaMsg :=
  ⟨7, 11, false, true, some "archive.mp4.txt", some "text/plain", 1000,
   none, "fid7"⟩

/-- A real video one byte over the configured maximum. -/
def oversizedVideo : MediaMsg :=
  ⟨8, 12, true, false, some "big.mp4", none, MAX_FILE_SIZE_BYTES + 1,
   some 60, "fid8"⟩

/-- Spec scenario E: a document named `clip.mkv`, no declared MIME type. -/
def clipMkvDoc : MediaMsg :=
  ⟨2, 13, false, true, some "clip.mkv", none, 1000, none, "fid2"⟩

/-- A document with neither a video extension nor a video MIME type. -/
def plainDoc : MediaMsg :=
  ⟨3, 14, false, true, some "notes.txt", some "text/plain", 1000, none,
   "fid3"⟩

/-- C6 counterexample: the claim's "exactly when" fails in both
directions.  `trickyDoc` has extension `.txt` and MIME `text/plain`,
so the claim says it is rejected, but `handle_video` accepts it and
creates a session (the code tests substring containment, and
`".mp4"` occurs inside `"archive.mp4.txt"`); `oversizedVideo`
satisfies the claim's condition (it is a video), but no session is
created because the size check intervenes. -/
theorem claim6_counterexample :
    (claimQualifies trickyDoc = false ∧
     (handle_video MAX_FILE_SIZE_BYTES trickyDoc emptyStore).2 = .accepted ∧
     (handle_video MAX_FILE_SIZE_BYTES trickyDoc emptyStore).1.userStates 7 =
       some .waitingForStartTime) ∧
    (claimQualifies oversizedVideo = true ∧
     (handle_video MAX_FILE_SIZE_BYTES oversizedVideo emptyStore).2 =
       .fileTooLarge ∧
     (handle_video MAX_FILE_SIZE_BYTES oversizedVideo emptyStore).1.userStates 8 =
       none) := by
  refine ⟨⟨?_, ?_, ?_⟩, ⟨?_, ?_, ?_⟩⟩ <;> with_unfolding_all decide

/-- `handle_video` replies `accepted` exactly when the three-way medium
test passes and the size is within the limit. -/
theorem handle_video_accepted_iff (maxB : Nat) (m : MediaMsg) (s : Store) :
    (handle_video maxB m s).2 = .accepted ↔
      qualifiesMedia m = true ∧ m.fileSize ≤ maxB := by
  unfold handle_video qualifiesMedia
  cases hv : m.isVideo <;> cases hd : m.isDocument <;>
    cases hm : mimeIsVideo m.mimeType <;> cases he : extMatches m.fileName
  all_goals by_cases hsz : maxB < m.fileSize <;> simp [hsz] <;> omega

/-- When `handle_video` accepts, the user's state is set to
`waiting_for_start_time` and a fresh `VIDEO_DATA` entry (no times) is
stored. -/
theorem handle_video_accepted_creates (maxB : Nat) (m : MediaMsg) (s : Store)
    (h : (handle_video maxB m s).2 = .accepted) :
    (handle_video maxB m s).1.userStates m.userId =
      some .waitingForStartTime ∧
    ∃ fn, (handle_video maxB m s).1.videoData m.userId =
      some ⟨m.messageId, m.fileId, m.duration, m.fileSize, fn,
        m.isDocument, none, none⟩ := by
  obtain ⟨hqual, hsz⟩ := (handle_video_accepted_iff maxB m s).mp h
  have hsz' : ¬maxB < m.fileSize := not_lt.mpr hsz
  cases hv : m.isVideo with
  | true =>
    refine ⟨?_, orDefaultName m.fileName, ?_⟩ <;>
      simp [handle_video, hv, hsz', update]
  | false =>
    cases hmime : m.isDocument && mimeIsVideo m.mimeType with
    | true =>
      refine ⟨?_, orDefaultName m.fileName, ?_⟩ <;>
        simp [handle_video, hv, hmime, hsz', update]
    | false =>
      cases hext : m.isDocument && extMatches m.fileName with
      | true =>
        refine ⟨?_, (m.fileName).getD "", ?_⟩ <;>
          simp [handle_video, hv, hmime, hext, hsz', update]
      | false =>
        exfalso
        simp [qualifiesMedia, hv, hmime, hext] at hqual

/-- When `handle_video` rejects (unsupported type or oversized), the
store is unchanged. -/
theorem handle_video_rejected_store (maxB : Nat) (m : MediaMsg) (s : Store)
    (h : (handle_video maxB m s).2 ≠ .accepted) :
    (handle_video maxB m s).1 = s := by
  cases hv : m.isVideo with
  | true =>
    by_cases hsz : maxB < m.fileSize
    · simp [handle_video, hv, hsz]
    · exact absurd (by simp [handle_video, hv, hsz]) h
  | false =>
    cases hmime : m.isDocument && mimeIsVideo m.mimeType with
    | true =>
      by_cases hsz : maxB < m.fileSize
      · simp [handle_video, hv, hmime, hsz]
      · exact absurd (by simp [handle_video, hv, hmime, hsz]) h
    | false =>
      cases hext : m.isDocument && extMatches m.fileName with
      | true =>
        by_cases hsz : maxB < m.fileSize
        · simp [handle_video, hv, hmime, hext, hsz]
        · exact absurd (by simp [handle_video, hv, hmime, hext, hsz]) h
      | false => simp [handle_video, hv, hmime, hext]

/-- C6 amended: a media message creates (or replaces) a session exactly
when it is a video, or a document with a declared `video/` MIME type,
or a document whose lower-cased file name *contains* one of the known
video extensions as a substring, *and* its size is within the
configured maximum; a rejected message (unsupported type or oversized)
leaves the store unchanged; `clip.mkv` with no MIME type is accepted,
and a document with neither a video extension nor a video MIME type is
rejected as unsupported with no session created. -/
theorem claim6_media_qualification (maxB : Nat) (m : MediaMsg) (s : Store) :
    ((handle_video maxB m s).2 = .accepted ↔
      (m.isVideo || (m.isDocument && mimeIsVideo m.mimeType) ||
        (m.isDocument && extMatches m.fileName)) = true ∧
      m.fileSize ≤ maxB) ∧
    ((handle_video maxB m s).2 = .accepted →
      (handle_video maxB m s).1.userStates m.userId =
        some .waitingForStartTime) ∧
    ((handle_video maxB m s).2 ≠ .accepted →
      (handle_video maxB m s).1 = s) ∧
    (handle_video MAX_FILE_SIZE_BYTES clipMkvDoc emptyStore).2 = .accepted ∧
    ((handle_video MAX_FILE_SIZE_BYTES plainDoc emptyStore).2 =
      .unsupportedMedia ∧
     (handle_video MAX_FILE_SIZE_BYTES plainDoc emptyStore).1.userStates 3 =
       none) := by
  refine ⟨handle_video_accepted_iff maxB m s,
    fun h => (handle_video_accepted_creates maxB m s h).1,
    handle_video_rejected_store maxB m s, ?_, ?_, ?_⟩ <;>
    with_unfolding_all decide

/-- C6 amended witness: the `clip.mkv` document is accepted and opens a
session for its sender. -/
theorem claim6_witness :
    (handle_video MAX_FILE_SIZE_BYTES clipMkvDoc emptyStore).1.userStates 2 =
      some .waitingForStartTime :=
  (claim6_media_qualification MAX_FILE_SIZE_BYTES clipMkvDoc emptyStore).2.1
    ((claim6_media_qualification MAX_FILE_SIZE_BYTES clipMkvDoc
      emptyStore).1.mpr (by with_unfolding_all decide))

/-! ### C2: events arriving while a session is `processing` -/

/-- A second qualifying video from user 1, sent while that user's
session is in `processing`. -/
def secondVideo : MediaMsg :=
  ⟨1, 99, true, false, some "second.mp4", none, 1000, some 30, "fid9"⟩

/-- C2 counterexample: `handle_video` never inspects the user's state,
so a qualifying media event arriving while user 1 is in `processing`
*is* processed as a new session — it overwrites the entry and resets the
state to `waiting_for_start_time`, before the running pipeline's cleanup
step has removed anything. -/
theorem claim2_counterexample :
    processingStore.userStates 1 = some .processing ∧
    (handle_video MAX_FILE_SIZE_BYTES secondVideo processingStore).2 =
      .accepted ∧
    (handle_video MAX_FILE_SIZE_BYTES secondVideo processingStore).1.userStates 1 =
      some .waitingForStartTime ∧
    (handle_video MAX_FILE_SIZE_BYTES secondVideo processingStore).1.videoData 1 ≠
      processingStore.videoData 1 := by
  refine ⟨?_, ?_, ?_, ?_⟩ <;> with_unfolding_all decide

/-- C2 amended: while a user's session is in `processing`, a
non-command *text* event is ignored (store unchanged, no reply), and
cancel removes the session unconditionally — no-opping safely when the
entry is already gone; a qualifying *media* event, however, is still
processed as a new session and replaces the entry. -/
theorem claim2_processing_events :
    (∀ (s : Store) (u : Nat) (text : String),
      s.userStates u = some .processing →
      ((pyStrip text.toList).headD ' ' == '/') = false →
      handle_text text u s = (s, .ignoredInProcessing)) ∧
    (∀ (s : Store) (u : Nat),
      (cancel_command u s).userStates u = none ∧
      (cancel_command u s).videoData u = none) ∧
    (∀ (s : Store) (u : Nat), s.userStates u = none → s.videoData u = none →
      cancel_command u s = s) ∧
    (∀ (maxB : Nat) (m : MediaMsg) (s : Store),
      s.userStates m.userId = some .processing →
      qualifiesMedia m = true → m.fileSize ≤ maxB →
      (handle_video maxB m s).1.userStates m.userId =
        some .waitingForStartTime) := by
  refine ⟨?_, ?_, ?_, ?_⟩
  · intro s u text h1 h2
    have h2' : ¬(pyStrip text.data).head?.getD ' ' = '/' := by simpa using h2
    simp [handle_text, h1, h2']
  · intro s u
    exact ⟨by simp [cancel_command, update], by simp [cancel_command, update]⟩
  · intro s u h1 h2
    refine Store.ext (funext fun k => ?_) (funext fun k => ?_)
    · by_cases hk : k = u
      · subst hk; simp [cancel_command, update, h1]
      · simp [cancel_command, update, hk]
    · by_cases hk : k = u
      · subst hk; simp [cancel_command, update, h2]
      · simp [cancel_command, update, hk]
  · intro maxB m s _hp hq hsz
    exact (handle_video_accepted_creates maxB m s
      ((handle_video_accepted_iff maxB m s).mpr ⟨hq, hsz⟩)).1

/-- C2 amended witness: concrete instances of all four parts at the
`processing` store. -/
theorem claim2_witness :
    handle_text "15" 1 processingStore =
      (processingStore, .ignoredInProcessing) ∧
    (cancel_command 1 processingStore).userStates 1 = none ∧
    cancel_command 3 emptyStore = emptyStore ∧
    (handle_video MAX_FILE_SIZE_BYTES secondVideo processingStore).1.userStates 1 =
      some .waitingForStartTime :=
  ⟨claim2_processing_events.1 processingStore 1 "15" rfl (by decide),
   (claim2_processing_events.2.1 processingStore 1).1,
   claim2_processing_events.2.2.1 emptyStore 3 rfl rfl,
   claim2_processing_events.2.2.2 MAX_FILE_SIZE_BYTES secondVideo
     processingStore rfl (by with_unfolding_all decide) (by decide)⟩

/-! ### C8: the progress callback -/

/-- Whether an attempted external edit succeeded. -/
def editOutcomeOk (e : Except String Unit) : Bool :=
  match e with
  | Except.ok _ => true
  | Except.error _ => false

/-- C8 counterexample: the callback does not fire when crossing 10%
boundaries.  With `total = 3` bytes, the call at `current = 2` has
moved the percentage from 33.3% past the 40%, 50% and 60% boundaries,
yet the callback updates nothing (`66.67 % 10 = 6.67 ≥ 1`); neither
call of the transfer ever fires. -/
theorem claim8_counterexample :
    (1 : ℚ) / 3 * 100 < 40 ∧ (60 : ℚ) ≤ 2 / 3 * 100 ∧
    progressFires 1 3 = false ∧ progressFires 2 3 = false ∧
    progress_callback 2 3 (Except.ok ()) = Except.ok false := by
  refine ⟨?_, ?_, ?_, ?_, ?_⟩
  · with_unfolding_all decide
  · with_unfolding_all decide
  · with_unfolding_all decide
  · with_unfolding_all decide
  · with_unfolding_all rfl

/-- C8 amended: the callback attempts the display update exactly when
the *current* percentage satisfies `percent % 10 < 1` (within one
point above a multiple of ten), not at each boundary crossing; any
failure of the display update is swallowed — the callback always
returns normally, with no effect on the transfer — and a transfer step
whose percentage misses the window updates nothing. -/
theorem claim8_progress_callback (current total : ℚ)
    (edit : Except String Unit) (_h : total ≠ 0) :
    progress_callback current total edit =
      Except.ok (progressFires current total && editOutcomeOk edit) ∧
    (progressFires current total = true ↔
      pymod (current / total * 100) 10 < 1) := by
  constructor
  · cases hf : progressFires current total <;> cases edit <;>
      simp [progress_callback, editOutcomeOk, hf]
  · simp [progressFires]

/-- C8 amended witness: at 10% the callback fires, and a failing edit
is swallowed (normal return, display not updated). -/
theorem claim8_witness :
    progress_callback 1 10 (Except.error "edit failed") =
      Except.ok false := by
  have h := (claim8_progress_callback 1 10 (Except.error "edit failed")
    (by norm_num)).1
  rw [h]
  with_unfolding_all rfl

/-! ### C1: every pipeline run cleans up -/

/-- The file cleanup always empties the workspace: both unlinks are
unconditional on existence, after which the directory is empty and
`os.rmdir` succeeds (or the directory never existed). -/
theorem cleanupWorkspace_empty (ws : Workspace) :
    cleanupWorkspace ws = ⟨false, false, false⟩ := by
  cases ws with
  | mk d i o => cases d <;> simp [cleanupWorkspace]

/-- C1: after any single `trim_and_send_video` run — success, early
FFmpeg-unavailable return, or any raised error — the user's session is
gone from both dictionaries and the run's temp workspace (input file,
output file and directory) no longer exists. -/
theorem claim1_run_always_cleans_up (env : RunEnv) (u : Nat) (s : Store) :
    (trim_and_send_video env u s).1.userStates u = none ∧
    (trim_and_send_video env u s).1.videoData u = none ∧
    (trim_and_send_video env u s).2.1 = ⟨false, false, false⟩ := by
  refine ⟨by simp [trim_and_send_video, update],
    by simp [trim_and_send_video, update], ?_⟩
  show cleanupWorkspace _ = _
  exact cleanupWorkspace_empty _

/-! ### C7: classification of a non-zero transcoder exit -/

/-- C7: when the subprocess exits non-zero (and the run reached it),
the run fails with the classification of the diagnostic text —
`"Invalid data found"` gives `invalidMediaFormat`; otherwise
`"No such file"` gives `inputNotFound`; otherwise `"Permission
denied"` gives `permissionDenied`; any other diagnostic gives the
generic `transcodeFailed` carrying the text — and the session is
cleared and the temp files removed. -/
theorem claim7_transcode_classification (env : RunEnv) (u : Nat) (s : Store)
    (vd : VideoData) (st en : ℚ)
    (hvd : s.videoData u = some vd) (hst : vd.startTime = some st)
    (hen : vd.endTime = some en)
    (h1 : env.ffmpegOk = true) (h2 : env.getMessagesOk = true)
    (h3 : env.downloadOk = true) (h4 : env.downloadCreatesFile = true)
    (h5 : (env.downloadedSize == 0) = false)
    (h6 : env.ffmpegTimesOut = false)
    (h7 : (env.ffmpegExitCode != 0) = true) :
    (trim_and_send_video env u s).2.2 =
      .transcodeError (classifyStderr env.ffmpegStderr) ∧
    (listContainsSub "Invalid data found".toList env.ffmpegStderr.toList = true →
      classifyStderr env.ffmpegStderr = .invalidMediaFormat) ∧
    (listContainsSub "Invalid data found".toList env.ffmpegStderr.toList = false →
      listContainsSub "No such file".toList env.ffmpegStderr.toList = true →
      classifyStderr env.ffmpegStderr = .inputNotFound) ∧
    (listContainsSub "Invalid data found".toList env.ffmpegStderr.toList = false →
      listContainsSub "No such file".toList env.ffmpegStderr.toList = false →
      listContainsSub "Permission denied".toList env.ffmpegStderr.toList = true →
      classifyStderr env.ffmpegStderr = .permissionDenied) ∧
    (listContainsSub "Invalid data found".toList env.ffmpegStderr.toList = false →
      listContainsSub "No such file".toList env.ffmpegStderr.toList = false →
      listContainsSub "Permission denied".toList env.ffmpegStderr.toList = false →
      classifyStderr env.ffmpegStderr = .transcodeFailed env.ffmpegStderr) ∧
    (trim_and_send_video env u s).1.userStates u = none ∧
    (trim_and_send_video env u s).2.1 = ⟨false, false, false⟩ := by
  refine ⟨?_, ?_, ?_, ?_, ?_, by simp [trim_and_send_video, update], ?_⟩
  · show (_, cleanupWorkspace _, _).2.2 = _
    simp [trim_and_send_video, hvd, hst, hen, h1, h2, h3, h4, h5, h6, h7]
  · intro ha; simp only [classifyStderr]; rw [ha]; simp
  · intro ha hb; simp only [classifyStderr]; rw [ha, hb]; simp
  · intro ha hb hc; simp only [classifyStderr]; rw [ha, hb, hc]; simp
  · intro ha hb hc; simp only [classifyStderr]; rw [ha, hb, hc]; simp
  · show cleanupWorkspace _ = _
    exact cleanupWorkspace_empty _

/-- The environment of spec scenario C: the subprocess exits 1 with a
diagnostic containing `"Invalid data found"`. -/
def ffmpegFailEnv : RunEnv :=
  ⟨true, true, true, true, 100, false, 1,
   "Error: Invalid data found when processing input", false, 0, true⟩

/-- C7 witness: scenario C — the run reports `invalidMediaFormat`, the
session is cleared and the workspace removed. -/
theorem claim7_witness :
    (trim_and_send_video ffmpegFailEnv 1 processingStore).2.2 =
      .transcodeError .invalidMediaFormat ∧
    (trim_and_send_video ffmpegFailEnv 1 processingStore).1.userStates 1 =
      none ∧
    (trim_and_send_video ffmpegFailEnv 1 processingStore).2.1 =
      ⟨false, false, false⟩ := by
  have h := claim7_transcode_classification ffmpegFailEnv 1 processingStore
    vdProcessing 10 40 rfl rfl rfl rfl rfl rfl rfl rfl rfl rfl
  refine ⟨?_, h.2.2.2.2.2.1, h.2.2.2.2.2.2⟩
  rw [h.1, h.2.1 (by decide)]

end VideoTrimmer
